import Mathlib

/-!
Verification of the itinerary-generation core of the AWS_aiBOT repository
(`src/utils/aibrain_client.py` and its caller `src/app.py`).

Strings are shallowly embedded as `List Char` (Python `str` values over the
inputs exercised here are sequences of Unicode code points, and Python `len`
counts code points, matching `List.length`).  The external generative-model
call is an oracle parameter `Nat → GenContents → GenResult`: the `Nat` is a
global call counter so that distinct invocations may answer differently, and
`GenContents` records exactly the request shape the Python code sends
(`[system_prompt, user_prompt]` on the primary path, `[user_prompt]` on the
reduced-prompt fallback path).  The `functools.lru_cache(maxsize=100)`
decorator is embedded as explicit state passing over a most-recently-used
ordered association list; exceptions are never cached, matching `lru_cache`,
which only stores values of calls that return normally.
-/

set_option maxRecDepth 100000

namespace AiBrain

/-- Abbreviation for embedded Python strings. -/
abbrev Str := List Char

/-- Coerce a Lean string literal to the embedded representation. -/
def str (s : String) : Str := s.toList

/-- The exact set of codepoints Python `str.strip()` removes (CPython
whitespace, checked against the interpreter over the whole codepoint space):
U+0009-U+000D, U+001C-U+0020, U+0085, U+00A0, U+1680, U+2000-U+200A, U+2028,
U+2029, U+202F, U+205F and U+3000. -/
def pyWs (c : Char) : Bool :=
  let n := c.toNat
  (0x09 ≤ n && n ≤ 0x0d) || (0x1c ≤ n && n ≤ 0x20) ||
  n == 0x85 || n == 0xa0 || n == 0x1680 ||
  (0x2000 ≤ n && n ≤ 0x200a) || n == 0x2028 || n == 0x2029 ||
  n == 0x202f || n == 0x205f || n == 0x3000

/-- Embedding of Python `str.strip()`: drop whitespace from both ends. -/
def pyStrip (l : Str) : Str :=
  ((l.dropWhile pyWs).reverse.dropWhile pyWs).reverse

/-- Embedding of Python `str.startswith(pattern)`. -/
def startsWithL : Str → Str → Bool
  | [], _ => true
  | _ :: _, [] => false
  | p :: ps, c :: cs => p = c && startsWithL ps cs

/-- If `pattern` is a prefix of `l`, return the rest of `l`; otherwise `none`. -/
def dropPrefixL : Str → Str → Option Str
  | [], l => some l
  | _ :: _, [] => none
  | p :: ps, c :: cs => if p = c then dropPrefixL ps cs else none

/-- The exact set of codepoints Python regex `\d` matches for `str` patterns
(the Unicode decimal digits, general category Nd; checked against the
interpreter over the whole codepoint space): 62 codepoint ranges. -/
def isUnicodeDigit (c : Char) : Bool :=
  let n := c.toNat
  (0x30 ≤ n && n ≤ 0x39) || (0x660 ≤ n && n ≤ 0x669) || (0x6f0 ≤ n && n ≤ 0x6f9) ||
  (0x7c0 ≤ n && n ≤ 0x7c9) || (0x966 ≤ n && n ≤ 0x96f) || (0x9e6 ≤ n && n ≤ 0x9ef) ||
  (0xa66 ≤ n && n ≤ 0xa6f) || (0xae6 ≤ n && n ≤ 0xaef) || (0xb66 ≤ n && n ≤ 0xb6f) ||
  (0xbe6 ≤ n && n ≤ 0xbef) || (0xc66 ≤ n && n ≤ 0xc6f) || (0xce6 ≤ n && n ≤ 0xcef) ||
  (0xd66 ≤ n && n ≤ 0xd6f) || (0xde6 ≤ n && n ≤ 0xdef) || (0xe50 ≤ n && n ≤ 0xe59) ||
  (0xed0 ≤ n && n ≤ 0xed9) || (0xf20 ≤ n && n ≤ 0xf29) || (0x1040 ≤ n && n ≤ 0x1049) ||
  (0x1090 ≤ n && n ≤ 0x1099) || (0x17e0 ≤ n && n ≤ 0x17e9) || (0x1810 ≤ n && n ≤ 0x1819) ||
  (0x1946 ≤ n && n ≤ 0x194f) || (0x19d0 ≤ n && n ≤ 0x19d9) || (0x1a80 ≤ n && n ≤ 0x1a89) ||
  (0x1a90 ≤ n && n ≤ 0x1a99) || (0x1b50 ≤ n && n ≤ 0x1b59) || (0x1bb0 ≤ n && n ≤ 0x1bb9) ||
  (0x1c40 ≤ n && n ≤ 0x1c49) || (0x1c50 ≤ n && n ≤ 0x1c59) || (0xa620 ≤ n && n ≤ 0xa629) ||
  (0xa8d0 ≤ n && n ≤ 0xa8d9) || (0xa900 ≤ n && n ≤ 0xa909) || (0xa9d0 ≤ n && n ≤ 0xa9d9) ||
  (0xa9f0 ≤ n && n ≤ 0xa9f9) || (0xaa50 ≤ n && n ≤ 0xaa59) || (0xabf0 ≤ n && n ≤ 0xabf9) ||
  (0xff10 ≤ n && n ≤ 0xff19) || (0x104a0 ≤ n && n ≤ 0x104a9) || (0x10d30 ≤ n && n ≤ 0x10d39) ||
  (0x11066 ≤ n && n ≤ 0x1106f) || (0x110f0 ≤ n && n ≤ 0x110f9) || (0x11136 ≤ n && n ≤ 0x1113f) ||
  (0x111d0 ≤ n && n ≤ 0x111d9) || (0x112f0 ≤ n && n ≤ 0x112f9) || (0x11450 ≤ n && n ≤ 0x11459) ||
  (0x114d0 ≤ n && n ≤ 0x114d9) || (0x11650 ≤ n && n ≤ 0x11659) || (0x116c0 ≤ n && n ≤ 0x116c9) ||
  (0x11730 ≤ n && n ≤ 0x11739) || (0x118e0 ≤ n && n ≤ 0x118e9) || (0x11950 ≤ n && n ≤ 0x11959) ||
  (0x11c50 ≤ n && n ≤ 0x11c59) || (0x11d50 ≤ n && n ≤ 0x11d59) || (0x11da0 ≤ n && n ≤ 0x11da9) ||
  (0x16a60 ≤ n && n ≤ 0x16a69) || (0x16ac0 ≤ n && n ≤ 0x16ac9) || (0x16b50 ≤ n && n ≤ 0x16b59) ||
  (0x1d7ce ≤ n && n ≤ 0x1d7ff) || (0x1e140 ≤ n && n ≤ 0x1e149) || (0x1e2f0 ≤ n && n ≤ 0x1e2f9) ||
  (0x1e950 ≤ n && n ≤ 0x1e959) || (0x1fbf0 ≤ n && n ≤ 0x1fbf9)

/-- Continuation of `digitsColonB`: after at least one digit, skip further
digits; the first non-digit character must be `':'` (regex `\d*:` after a
first digit, i.e. the tail of `\d+:`). -/
def digitsColonTail : Str → Bool
  | [] => false
  | c :: cs => if isUnicodeDigit c then digitsColonTail cs else c = ':'

/-- Matches the regex `\d+:` at the start of the string: one or more Unicode
decimal digits immediately followed by `':'`. -/
def digitsColonB : Str → Bool
  | [] => false
  | c :: cs => isUnicodeDigit c && digitsColonTail cs

/-- Matches the regex `Day \d+:` at the start of the string. -/
def dayHdrStartB (l : Str) : Bool :=
  match dropPrefixL (str "Day ") l with
  | some r => digitsColonB r
  | none => false

/-- Matches the alternation used as the lookahead of the `re.split` pattern in
`format_itinerary_response` (src/utils/aibrain_client.py line 98):
`Day \d+:|Overview:|Essential Tips:|Budget Considerations:|Safety Tips:|Local Customs:`
at the start of the string. -/
def headerStartB (l : Str) : Bool :=
  dayHdrStartB l ||
  startsWithL (str "Overview:") l ||
  startsWithL (str "Essential Tips:") l ||
  startsWithL (str "Budget Considerations:") l ||
  startsWithL (str "Safety Tips:") l ||
  startsWithL (str "Local Customs:") l

/-- Embedding of
`re.split(r'\n(?=Day \d+:|Overview:|Essential Tips:|Budget Considerations:|Safety Tips:|Local Customs:', raw)`:
the string is cut at every newline that is immediately followed by a section
header; the newline itself is consumed (it is the matched text, the header is
a zero-width lookahead). -/
def splitSections : Str → List Str
  | [] => [[]]
  | c :: rest =>
    if c = '\n' && headerStartB rest then
      [] :: splitSections rest
    else
      match splitSections rest with
      | [] => [[c]]
      | s :: ss => (c :: s) :: ss

/-- The tuple test `section.startswith(('Day ', 'Overview:', 'Essential Tips:',
'Budget Considerations:', 'Safety Tips:', 'Local Customs:'))` from
src/utils/aibrain_client.py line 106.  Note the first alternative is the bare
prefix `"Day "` (no digits required), unlike the split regex. -/
def sectionPrefixB (l : Str) : Bool :=
  startsWithL (str "Day ") l ||
  startsWithL (str "Overview:") l ||
  startsWithL (str "Essential Tips:") l ||
  startsWithL (str "Budget Considerations:") l ||
  startsWithL (str "Safety Tips:") l ||
  startsWithL (str "Local Customs:") l

/-- Matches the regex `## Day \d+:` at the start of the string. -/
def hashDayB (l : Str) : Bool :=
  match dropPrefixL (str "## ") l with
  | some r => dayHdrStartB r
  | none => false

/-- Embedding of `re.sub(r'(\n## Day \d+:)', r'\n---\1', formatted_text)`:
every occurrence of a newline followed by `## Day \d+:` is preceded by an
inserted `---` line.  Replacing the match `\n## Day \d+:` by `\n---` plus the
match and resuming the scan after the match is equivalent to emitting
`\n---\n` and rescanning from the `##`, because `## Day \d+:` contains no
newline and so can trigger no further match before the next newline. -/
def subDays : Str → Str
  | [] => []
  | c :: rest =>
    if c = '\n' && hashDayB rest then
      '\n' :: '-' :: '-' :: '-' :: '\n' :: subDays rest
    else
      c :: subDays rest

/-- Embedding of `format_itinerary_response` (src/utils/aibrain_client.py
lines 87-116): split at section headers, strip each section, drop empty ones,
prefix `## ` to sections that start with a recognised header word, join with
blank lines, then insert `---` rules before each day heading. -/
def format_itinerary_response (raw_response : Str) : Str :=
  let sections := splitSections raw_response
  let formatted_sections := sections.filterMap (fun sec =>
    let s := pyStrip sec
    if s = [] then none
    else some (if sectionPrefixB s then str "## " ++ s else s))
  subDays (List.intercalate (str "\n\n") formatted_sections)

/-- The test `occursB p l` is true when `p` holds at some suffix of `l` (i.e. the
pattern recognised by `p` occurs somewhere in `l`). -/
def occursB (p : Str → Bool) : Str → Bool
  | [] => false
  | c :: rest => p (c :: rest) || occursB p rest

/-- The start pattern of the `re.sub` above: a newline followed by
`## Day \d+:`. -/
def nlHashDayStartB : Str → Bool
  | [] => false
  | c :: rest => c = '\n' && hashDayB rest

/-- Embedding of `validate_inputs` (src/utils/aibrain_client.py lines 60-85).
The result is `none` on success and `some errorMessage` when a
`TravelAssistantError` is raised.  The Python `isinstance` guards on
`destination : str`, `days : int` and `preferences : str` are discharged by
the types of the embedding. -/
def validate_inputs (destination : Str) (days : Int) (preferences : Str) : Option Str :=
  if pyStrip destination = [] then
    some (str "Destination must be a non-empty string")
  else if days < 1 ∨ days > 30 then
    some (str "Days must be an integer between 1 and 30")
  else if destination.length > 100 then
    some (str "Destination name is too long (max 100 characters)")
  else if preferences.length > 500 then
    some (str "Preferences text is too long (max 500 characters)")
  else
    none

/-- Embedding of `format_currency` (src/utils/aibrain_client.py lines 52-54),
`f"{currency} {amount:,.2f}"`, with the float already rendered as text; the
only call in the repository is `format_currency(0, "USD") = "USD 0.00"`. -/
def format_currency (amountText : Str) (currency : Str) : Str :=
  currency ++ str " " ++ amountText

/-- Embedding of `format_time_range` (src/utils/aibrain_client.py lines
56-58): `f"{start_time} - {end_time}"`. -/
def format_time_range (startTime endTime : Str) : Str :=
  startTime ++ str " - " ++ endTime

/-- Python `str(i)` for an `int`. -/
def intStr (i : Int) : Str := (toString i).toList

/-- The `system_prompt` f-string of `generate_itinerary`
(src/utils/aibrain_client.py lines 143-182), a triple-quoted literal whose
8-space source indentation is part of the string.  The interpolations
`{format_currency(0, "USD")}`, `{format_time_range("HH:MM", "HH:MM")}` and
`{language}` are spliced in. -/
def system_prompt (language : Str) : Str :=
  str "You are an expert travel assistant that creates detailed and personalized travel itineraries.\n" ++
  str "        Focus on providing practical, well-structured information in the following format:\n" ++
  str "\n" ++
  str "        Overview:\n" ++
  str "        [Brief overview of the destination and trip]\n" ++
  str "\n" ++
  str "        Essential Tips:\n" ++
  str "        - Best time to visit and current weather considerations\n" ++
  str "        - Local transportation options and how to get around\n" ++
  str "        - Important local phrases and communication tips\n" ++
  str "        - Recommended areas to stay\n" ++
  str "\n" ++
  str "        [For each day, provide:]\n" ++
  str "        Day X:\n" ++
  str "        - Morning (time): [Activities with specific locations, estimated durations, and costs]\n" ++
  str "        - Afternoon (time): [Activities]\n" ++
  str "        - Evening (time): [Activities]\n" ++
  str "        - Recommended restaurants for each meal\n" ++
  str "        - Local tips and tricks for the day\x27s activities\n" ++
  str "\n" ++
  str "        Budget Considerations:\n" ++
  str "        - Estimated daily costs (accommodation, food, activities, transport)\n" ++
  str "        - Money-saving tips\n" ++
  str "        - Price ranges for different activities\n" ++
  str "\n" ++
  str "        Safety Tips:\n" ++
  str "        - Emergency numbers and locations of hospitals\n" ++
  str "        - Areas to avoid or be cautious about\n" ++
  str "        - Common scams to watch out for\n" ++
  str "        - COVID-19 or other health considerations\n" ++
  str "\n" ++
  str "        Local Customs:\n" ++
  str "        - Cultural etiquette and taboos\n" ++
  str "        - Tipping customs\n" ++
  str "        - Dress code recommendations\n" ++
  str "        - Important local laws to be aware of\n" ++
  str "\n" ++
  str "        Format all costs in " ++ format_currency (str "0.00") (str "USD") ++ str " format.\n" ++
  str "        Format all time ranges as " ++ format_time_range (str "HH:MM") (str "HH:MM") ++ str ".\n" ++
  str "        Provide the response in " ++ language ++ str " language."

/-- The `user_prompt` of `generate_itinerary` (src/utils/aibrain_client.py
lines 184-190), a concatenation of adjacent string literals with `{days}` and
`{destination}` and `{preferences}` interpolated. -/
def user_prompt (destination : Str) (days : Int) (preferences : Str) : Str :=
  str "Create a detailed " ++ intStr days ++ str "-day itinerary for " ++ destination ++ str ". " ++
  str "Travel preferences: " ++ preferences ++ str ". " ++
  str "Include specific recommendations for attractions, restaurants, and activities. " ++
  str "Add estimated costs and practical travel tips. " ++
  str "Also include local customs and etiquette tips."

/-- Outcome of one raw call to `model.generate_content`: either the response
text or the message of the raised exception. -/
inductive GenResult where
  | ok (text : Str)
  | err (msg : Str)
deriving DecidableEq

/-- The request contents `generate_itinerary` sends to the model: the primary
path sends the two-part `[system_prompt, user_prompt]` contents
(src/utils/aibrain_client.py lines 197-201), the fallback path sends
`[user_prompt]` alone (lines 232-233).  The constant
`GenerationConfig(temperature=0.7, top_p=0.8, top_k=40,
max_output_tokens=2048)` is identical on both calls and does not influence
any property proved here, so it is not carried in the request value. -/
inductive GenContents where
  | full (systemPrompt userPrompt : Str)
  | userOnly (userPrompt : Str)
deriving DecidableEq

/-- The external Gemini model as an oracle: given the global index of the raw
call (so that successive calls may behave differently) and the request
contents, it either returns text or fails. -/
abbrev Oracle := Nat → GenContents → GenResult

/-- Whether a raw model call returned normally. -/
def genIsOk : GenResult → Bool
  | GenResult.ok _ => true
  | GenResult.err _ => false

/-- The selected model identifier (src/utils/aibrain_client.py lines 40-44;
both assignments store the same literal). -/
def GEMINI_MODEL : Str := str "gemini-1.5-pro"

/-- The `metadata` dictionary of a generation result
(src/utils/aibrain_client.py lines 218-227 and 243-253).  `fallback` models
key presence: `none` when the key is absent (primary path), `some true` when
the fallback path stored `True`. -/
structure Metadata where
  destination : Str
  days : Int
  preferences : Str
  language : Str
  model : Str
  prompt_tokens : Nat
  generated_at : Str
  version : Str
  fallback : Option Bool
deriving DecidableEq, Inhabited

/-- The dictionary returned by a successful `generate_itinerary` call. -/
structure ItineraryResult where
  itinerary : Str
  metadata : Metadata
deriving DecidableEq, Inhabited

/-- The outer `except Exception as e` of `generate_itinerary`
(src/utils/aibrain_client.py lines 256-258) re-raises
`TravelAssistantError(f"Failed to generate itinerary: {str(e)}")`. -/
def wrapError (msg : Str) : Str :=
  str "Failed to generate itinerary: " ++ msg

/-- The body of `generate_itinerary` (src/utils/aibrain_client.py lines
140-258), without the `lru_cache` wrapper: validate, build the two prompts,
issue the primary model call, on success format the text and return it with
metadata; on a model error issue one reduced-prompt retry and return its raw
text with `fallback = True` metadata; wrap any remaining failure into a
`TravelAssistantError`.  `callIdx` is the oracle index of the first raw call
and `now` the value of `datetime.utcnow().isoformat()`.  The second component
counts the raw model calls issued. -/
def generate_itinerary_body (oracle : Oracle) (now : Str) (destination : Str)
    (days : Int) (preferences language : Str) (callIdx : Nat) :
    Except Str ItineraryResult × Nat :=
  match validate_inputs destination days preferences with
  | some msg => (Except.error (wrapError msg), 0)
  | none =>
    let sp := system_prompt language
    let up := user_prompt destination days preferences
    match oracle callIdx (GenContents.full sp up) with
    | GenResult.ok text =>
      (Except.ok {
        itinerary := format_itinerary_response text
        metadata := {
          destination := destination
          days := days
          preferences := preferences
          language := language
          model := GEMINI_MODEL
          prompt_tokens := (sp ++ up).length / 4
          generated_at := now
          version := str "1.1.0"
          fallback := none } }, 1)
    | GenResult.err _ =>
      match oracle (callIdx + 1) (GenContents.userOnly up) with
      | GenResult.ok text =>
        (Except.ok {
          itinerary := text
          metadata := {
            destination := destination
            days := days
            preferences := preferences
            language := language
            model := GEMINI_MODEL
            prompt_tokens := up.length / 4
            generated_at := now
            version := str "1.1.0"
            fallback := some true } }, 2)
      | GenResult.err m2 => (Except.error (wrapError m2), 2)

/-- The cache key of `lru_cache`: the exact argument tuple
`(destination, days, preferences, language)`, with no normalisation. -/
abbrev CacheKey := Str × Int × Str × Str

/-- The mutable per-process state of the module: the `lru_cache` memo table
(most-recently-used entry first) and the running count of raw model calls. -/
structure CacheState where
  cache : List (CacheKey × ItineraryResult)
  calls : Nat
deriving DecidableEq

/-- Look a key up in the memo table. -/
def lruLookup (k : CacheKey) :
    List (CacheKey × ItineraryResult) → Option ItineraryResult
  | [] => none
  | e :: rest => if e.1 = k then some e.2 else lruLookup k rest

/-- Remove every entry with the given key (keys are unique in reachable
states, so at most one entry is removed). -/
def lruRemove (k : CacheKey) :
    List (CacheKey × ItineraryResult) → List (CacheKey × ItineraryResult)
  | [] => []
  | e :: rest => if e.1 = k then lruRemove k rest else e :: lruRemove k rest

/-- The `maxsize=100` bound of the `lru_cache` decorator
(src/utils/aibrain_client.py line 118). -/
def LRU_MAXSIZE : Nat := 100

/-- The function `generate_itinerary` with its `lru_cache(maxsize=100)` wrapper
(src/utils/aibrain_client.py line 118): on a hit the cached result is
returned, no model call is issued and the entry becomes most recently used;
on a miss the body runs, a successful result is stored as most recently used
and the least-recently-used entry is evicted once the capacity of 100 is
exceeded; an exception is propagated and nothing is stored. -/
def generate_itinerary (oracle : Oracle) (now : Str) (destination : Str)
    (days : Int) (preferences language : Str) (s : CacheState) :
    Except Str ItineraryResult × CacheState :=
  let k : CacheKey := (destination, days, preferences, language)
  match lruLookup k s.cache with
  | some v => (Except.ok v, { s with cache := (k, v) :: lruRemove k s.cache })
  | none =>
    match generate_itinerary_body oracle now destination days preferences language s.calls with
    | (Except.ok v, n) =>
      (Except.ok v, { cache := ((k, v) :: s.cache).take LRU_MAXSIZE, calls := s.calls + n })
    | (Except.error e, n) => (Except.error e, { s with calls := s.calls + n })

/-- The function `clear_cache` (src/utils/aibrain_client.py lines 260-263):
`generate_itinerary.cache_clear()` empties the memo table and raises
nothing. -/
def clear_cache (s : CacheState) : CacheState :=
  { s with cache := [] }

/-- Run a sequence of `generate_itinerary` calls, one per key, threading the
state. -/
def runCalls (oracle : Oracle) (now : Str) : List CacheKey → CacheState → CacheState
  | [], s => s
  | k :: ks, s =>
    runCalls oracle now ks (generate_itinerary oracle now k.1 k.2.1 k.2.2.1 k.2.2.2 s).2

/-- Whether a call returned normally. -/
def exceptIsOk : Except Str ItineraryResult → Bool
  | Except.ok _ => true
  | Except.error _ => false

/-- The `except TravelAssistantError` handler of the `/generate-itinerary`
route (src/app.py lines 132-134): the exception's own message is returned
verbatim as the body of a 400 response. -/
def travel_assistant_error_response (msg : Str) : Str × Nat :=
  (msg, 400)

/-- A model behaviour whose first raw call fails and whose later calls
succeed: it drives `generate_itinerary` onto the reduced-prompt fallback
path. -/
def oracleFailFirst : Oracle := fun n _ =>
  if n = 0 then GenResult.err (str "boom") else GenResult.ok (str "text")

/-- A model behaviour that always succeeds with the text `"text"`. -/
def oracleOk : Oracle := fun _ _ => GenResult.ok (str "text")

/-- A model behaviour that always fails with a provider-internal message. -/
def oracleBothErr : Oracle := fun _ _ =>
  GenResult.err (str "quota exceeded for project 12345")

/-- The result `generate_itinerary` produces for `("Paris", 3, "", "en")`
under `oracleFailFirst` (reduced-prompt path). -/
def fallbackDemoResult : ItineraryResult :=
  { itinerary := str "text"
    metadata := {
      destination := str "Paris"
      days := 3
      preferences := []
      language := str "en"
      model := GEMINI_MODEL
      prompt_tokens := (user_prompt (str "Paris") 3 []).length / 4
      generated_at := str "T"
      version := str "1.1.0"
      fallback := some true } }

/-- The result `generate_itinerary` produces for `("Paris", 3, "", "en")`
under `oracleOk` (primary path). -/
def primaryDemoResult : ItineraryResult :=
  { itinerary := format_itinerary_response (str "text")
    metadata := {
      destination := str "Paris"
      days := 3
      preferences := []
      language := str "en"
      model := GEMINI_MODEL
      prompt_tokens := (system_prompt (str "en") ++ user_prompt (str "Paris") 3 []).length / 4
      generated_at := str "T"
      version := str "1.1.0"
      fallback := none } }

/-- A list of 100 distinct valid cache keys (they differ in the `language` component,
which `generate_itinerary` never validates). -/
def demoKeys : List CacheKey :=
  (List.range 100).map (fun i => ((str "a"), (1 : Int), ([] : Str), [Char.ofNat (200 + i)]))

/-- One more valid key, distinct from every member of `demoKeys`. -/
def demoKey0 : CacheKey := ((str "a"), (1 : Int), ([] : Str), [Char.ofNat 199])

end AiBrain

namespace AiBrain

/-! ### Equation lemmas for the body and the cached wrapper -/

lemma body_validation_err (oracle : Oracle) (now dest : Str) (days : Int)
    (prefs lang : Str) (n : Nat) (msg : Str)
    (h : validate_inputs dest days prefs = some msg) :
    generate_itinerary_body oracle now dest days prefs lang n =
      (Except.error (wrapError msg), 0) := by
  unfold generate_itinerary_body
  rw [h]

lemma body_primary_ok (oracle : Oracle) (now dest : Str) (days : Int)
    (prefs lang : Str) (n : Nat) (t : Str)
    (hv : validate_inputs dest days prefs = none)
    (h1 : oracle n (GenContents.full (system_prompt lang) (user_prompt dest days prefs)) =
      GenResult.ok t) :
    generate_itinerary_body oracle now dest days prefs lang n =
      (Except.ok {
        itinerary := format_itinerary_response t
        metadata := {
          destination := dest
          days := days
          preferences := prefs
          language := lang
          model := GEMINI_MODEL
          prompt_tokens := (system_prompt lang ++ user_prompt dest days prefs).length / 4
          generated_at := now
          version := str "1.1.0"
          fallback := none } }, 1) := by
  unfold generate_itinerary_body
  rw [hv]
  dsimp only
  rw [h1]

lemma body_fallback_ok (oracle : Oracle) (now dest : Str) (days : Int)
    (prefs lang : Str) (n : Nat) (em t : Str)
    (hv : validate_inputs dest days prefs = none)
    (h1 : oracle n (GenContents.full (system_prompt lang) (user_prompt dest days prefs)) =
      GenResult.err em)
    (h2 : oracle (n + 1) (GenContents.userOnly (user_prompt dest days prefs)) =
      GenResult.ok t) :
    generate_itinerary_body oracle now dest days prefs lang n =
      (Except.ok {
        itinerary := t
        metadata := {
          destination := dest
          days := days
          preferences := prefs
          language := lang
          model := GEMINI_MODEL
          prompt_tokens := (user_prompt dest days prefs).length / 4
          generated_at := now
          version := str "1.1.0"
          fallback := some true } }, 2) := by
  unfold generate_itinerary_body
  rw [hv]
  dsimp only
  rw [h1]
  dsimp only
  rw [h2]

lemma body_both_err (oracle : Oracle) (now dest : Str) (days : Int)
    (prefs lang : Str) (n : Nat) (em em2 : Str)
    (hv : validate_inputs dest days prefs = none)
    (h1 : oracle n (GenContents.full (system_prompt lang) (user_prompt dest days prefs)) =
      GenResult.err em)
    (h2 : oracle (n + 1) (GenContents.userOnly (user_prompt dest days prefs)) =
      GenResult.err em2) :
    generate_itinerary_body oracle now dest days prefs lang n =
      (Except.error (wrapError em2), 2) := by
  unfold generate_itinerary_body
  rw [hv]
  dsimp only
  rw [h1]
  dsimp only
  rw [h2]

lemma body_calls_pos (oracle : Oracle) (now dest : Str) (days : Int)
    (prefs lang : Str) (n : Nat)
    (hv : validate_inputs dest days prefs = none) :
    1 ≤ (generate_itinerary_body oracle now dest days prefs lang n).2 := by
  cases h1 : oracle n (GenContents.full (system_prompt lang) (user_prompt dest days prefs)) with
  | ok t => rw [body_primary_ok oracle now dest days prefs lang n t hv h1]
  | err em =>
    cases h2 : oracle (n + 1) (GenContents.userOnly (user_prompt dest days prefs)) with
    | ok t =>
      rw [body_fallback_ok oracle now dest days prefs lang n em t hv h1 h2]
      exact Nat.le_of_lt Nat.one_lt_two
    | err em2 =>
      rw [body_both_err oracle now dest days prefs lang n em em2 hv h1 h2]
      exact Nat.le_of_lt Nat.one_lt_two

lemma gen_hit (oracle : Oracle) (now dest : Str) (days : Int)
    (prefs lang : Str) (s : CacheState) (v : ItineraryResult)
    (h : lruLookup (dest, days, prefs, lang) s.cache = some v) :
    generate_itinerary oracle now dest days prefs lang s =
      (Except.ok v, { s with cache :=
        ((dest, days, prefs, lang), v) :: lruRemove (dest, days, prefs, lang) s.cache }) := by
  unfold generate_itinerary
  dsimp only
  rw [h]

lemma gen_miss_ok (oracle : Oracle) (now dest : Str) (days : Int)
    (prefs lang : Str) (s : CacheState) (v : ItineraryResult) (n : Nat)
    (h : lruLookup (dest, days, prefs, lang) s.cache = none)
    (hb : generate_itinerary_body oracle now dest days prefs lang s.calls = (Except.ok v, n)) :
    generate_itinerary oracle now dest days prefs lang s =
      (Except.ok v, {
        cache := (((dest, days, prefs, lang), v) :: s.cache).take LRU_MAXSIZE
        calls := s.calls + n }) := by
  unfold generate_itinerary
  dsimp only
  rw [h]
  dsimp only
  rw [hb]

lemma gen_miss_err (oracle : Oracle) (now dest : Str) (days : Int)
    (prefs lang : Str) (s : CacheState) (e : Str) (n : Nat)
    (h : lruLookup (dest, days, prefs, lang) s.cache = none)
    (hb : generate_itinerary_body oracle now dest days prefs lang s.calls = (Except.error e, n)) :
    generate_itinerary oracle now dest days prefs lang s =
      (Except.error e, { s with calls := s.calls + n }) := by
  unfold generate_itinerary
  dsimp only
  rw [h]
  dsimp only
  rw [hb]

end AiBrain

namespace AiBrain

/-! ### Helper lemmas about the memo table -/

lemma lruLookup_eq_none (k : CacheKey) (c : List (CacheKey × ItineraryResult)) :
    lruLookup k c = none ↔ k ∉ c.map Prod.fst := by
  induction c with
  | nil => simp [lruLookup]
  | cons e rest ih =>
    by_cases he : e.1 = k
    · simp [lruLookup, he]
    · simp [lruLookup, he, ih, Ne.symm he]

lemma lruRemove_length_le (k : CacheKey) (c : List (CacheKey × ItineraryResult)) :
    (lruRemove k c).length ≤ c.length := by
  induction c with
  | nil => simp [lruRemove]
  | cons e rest ih =>
    by_cases he : e.1 = k
    · simp only [lruRemove, if_pos he]
      exact Nat.le_succ_of_le ih
    · simp only [lruRemove, if_neg he, List.length_cons]
      exact Nat.succ_le_succ ih

lemma lruRemove_length_lt (k : CacheKey) (c : List (CacheKey × ItineraryResult))
    (v : ItineraryResult) (h : lruLookup k c = some v) :
    (lruRemove k c).length + 1 ≤ c.length := by
  induction c with
  | nil => simp [lruLookup] at h
  | cons e rest ih =>
    by_cases he : e.1 = k
    · simp only [lruRemove, if_pos he, List.length_cons]
      exact Nat.succ_le_succ (lruRemove_length_le k rest)
    · simp only [lruLookup, if_neg he] at h
      simp only [lruRemove, if_neg he, List.length_cons]
      exact Nat.succ_le_succ (ih h)

lemma take_append_take {α : Type} (n : Nat) (A B : List α) :
    (A ++ B.take n).take n = (A ++ B).take n := by
  rw [List.take_append_eq_append_take, List.take_append_eq_append_take, List.take_take,
    Nat.min_eq_left (Nat.sub_le n A.length)]

end AiBrain

namespace AiBrain

/-! ### Claim theorems -/

/-- C7: applied to the raw text `"Overview: foo\nDay 1: bar"`, the response
formatter produces two heading-marked sections in their original order, with
the `---` separator immediately preceding the `Day 1` section. -/
theorem formatter_on_overview_day_example :
    format_itinerary_response (str "Overview: foo\nDay 1: bar") =
      str "## Overview: foo" ++ str "\n\n" ++ str "---\n" ++ str "## Day 1: bar" := by
  decide

/-- C2: validation succeeds exactly when the destination is non-blank and at
most 100 characters, the days are in [1,30] and the preferences are at most
500 characters (500 exactly is accepted); and whenever validation fails,
`generate_itinerary` raises the wrapped `TravelAssistantError` (the spec's
ValidationError) without issuing any external model call and without touching
the cache. -/
theorem validation_rejects_bad_inputs (oracle : Oracle) (now dest : Str) (days : Int)
    (prefs lang : Str) (s : CacheState)
    (hmiss : lruLookup (dest, days, prefs, lang) s.cache = none) :
    (validate_inputs dest days prefs = none ↔
      (pyStrip dest ≠ [] ∧ dest.length ≤ 100 ∧ 1 ≤ days ∧ days ≤ 30 ∧ prefs.length ≤ 500)) ∧
    (∀ msg, validate_inputs dest days prefs = some msg →
      (generate_itinerary oracle now dest days prefs lang s).1 = Except.error (wrapError msg) ∧
      (generate_itinerary oracle now dest days prefs lang s).2.calls = s.calls ∧
      (generate_itinerary oracle now dest days prefs lang s).2.cache = s.cache) := by
  refine ⟨⟨fun h => ?_, fun ha => ?_⟩, fun msg hmsg => ?_⟩
  · unfold validate_inputs at h
    split_ifs at h with h1 h2 h3 h4
    push_neg at h2
    exact ⟨h1, by omega, by omega, by omega, by omega⟩
  · obtain ⟨a1, a2, a3, a4, a5⟩ := ha
    unfold validate_inputs
    rw [if_neg a1, if_neg (by omega : ¬(days < 1 ∨ days > 30)),
      if_neg (by omega : ¬(dest.length > 100)), if_neg (by omega : ¬(prefs.length > 500))]
  · have hb := body_validation_err oracle now dest days prefs lang s.calls msg hmsg
    rw [gen_miss_err oracle now dest days prefs lang s (wrapError msg) 0 hmiss hb]
    exact ⟨rfl, by simp, rfl⟩

theorem validation_rejects_bad_inputs_witness :
    lruLookup (str "Paris", (0 : Int), [], str "en") (CacheState.mk [] 0).cache = none ∧
    validate_inputs (str "Paris") 0 [] = some (str "Days must be an integer between 1 and 30") ∧
    (generate_itinerary oracleOk (str "T") (str "Paris") 0 [] (str "en")
      (CacheState.mk [] 0)).2.calls = (CacheState.mk [] 0).calls :=
  ⟨rfl, by decide,
    ((validation_rejects_bad_inputs oracleOk (str "T") (str "Paris") 0 [] (str "en")
        ⟨[], 0⟩ rfl).2
      (str "Days must be an integer between 1 and 30") (by decide)).2.1⟩

/-- C4: if the primary model call fails and the reduced-prompt retry (user
prompt only, no system prompt) succeeds, `generate_itinerary` returns a
success result whose metadata carries `fallback = True`, after exactly two
raw model calls; and on the primary path the `fallback` key is absent. -/
theorem fallback_retry_and_flag (oracle : Oracle) (now dest : Str) (days : Int)
    (prefs lang : Str) (n : Nat)
    (hv : validate_inputs dest days prefs = none) :
    (∀ em t,
      oracle n (GenContents.full (system_prompt lang) (user_prompt dest days prefs)) =
        GenResult.err em →
      oracle (n + 1) (GenContents.userOnly (user_prompt dest days prefs)) = GenResult.ok t →
      generate_itinerary_body oracle now dest days prefs lang n =
        (Except.ok {
          itinerary := t
          metadata := {
            destination := dest
            days := days
            preferences := prefs
            language := lang
            model := GEMINI_MODEL
            prompt_tokens := (user_prompt dest days prefs).length / 4
            generated_at := now
            version := str "1.1.0"
            fallback := some true } }, 2)) ∧
    (∀ t r,
      oracle n (GenContents.full (system_prompt lang) (user_prompt dest days prefs)) =
        GenResult.ok t →
      (generate_itinerary_body oracle now dest days prefs lang n).1 = Except.ok r →
      r.metadata.fallback = none) := by
  constructor
  · intro em t h1 h2
    exact body_fallback_ok oracle now dest days prefs lang n em t hv h1 h2
  · intro t r h1 hr
    rw [body_primary_ok oracle now dest days prefs lang n t hv h1] at hr
    dsimp only at hr
    injection hr with h
    subst h
    rfl

theorem fallback_retry_and_flag_witness :
    validate_inputs (str "Paris") 3 [] = none ∧
    generate_itinerary_body oracleFailFirst (str "T") (str "Paris") 3 [] (str "en") 0 =
      (Except.ok fallbackDemoResult, 2) :=
  ⟨by decide,
    (fallback_retry_and_flag oracleFailFirst (str "T") (str "Paris") 3 [] (str "en") 0
        (by decide)).1
      (str "boom") (str "text") rfl rfl⟩

/-- C10: on the reduced-prompt fallback path the returned itinerary text is
the raw model output (the formatter is not applied) and `prompt_tokens`
counts only the user prompt; on the primary path the text is formatted and
`prompt_tokens` counts system plus user prompt. -/
theorem fallback_returns_raw_text (oracle : Oracle) (now dest : Str) (days : Int)
    (prefs lang : Str) (n : Nat)
    (hv : validate_inputs dest days prefs = none) :
    (∀ em t r,
      oracle n (GenContents.full (system_prompt lang) (user_prompt dest days prefs)) =
        GenResult.err em →
      oracle (n + 1) (GenContents.userOnly (user_prompt dest days prefs)) = GenResult.ok t →
      (generate_itinerary_body oracle now dest days prefs lang n).1 = Except.ok r →
      r.itinerary = t ∧
      r.metadata.prompt_tokens = (user_prompt dest days prefs).length / 4) ∧
    (∀ t r,
      oracle n (GenContents.full (system_prompt lang) (user_prompt dest days prefs)) =
        GenResult.ok t →
      (generate_itinerary_body oracle now dest days prefs lang n).1 = Except.ok r →
      r.itinerary = format_itinerary_response t ∧
      r.metadata.prompt_tokens =
        (system_prompt lang ++ user_prompt dest days prefs).length / 4) := by
  constructor
  · intro em t r h1 h2 hr
    rw [body_fallback_ok oracle now dest days prefs lang n em t hv h1 h2] at hr
    dsimp only at hr
    injection hr with h
    subst h
    exact ⟨rfl, rfl⟩
  · intro t r h1 hr
    rw [body_primary_ok oracle now dest days prefs lang n t hv h1] at hr
    dsimp only at hr
    injection hr with h
    subst h
    exact ⟨rfl, rfl⟩

theorem fallback_returns_raw_text_witness :
    validate_inputs (str "Paris") 3 [] = none ∧
    (fallbackDemoResult.itinerary = str "text" ∧
      fallbackDemoResult.metadata.prompt_tokens = (user_prompt (str "Paris") 3 []).length / 4) :=
  ⟨by decide,
    (fallback_returns_raw_text oracleFailFirst (str "T") (str "Paris") 3 [] (str "en") 0
        (by decide)).1
      (str "boom") (str "text") fallbackDemoResult rfl rfl rfl⟩

end AiBrain

namespace AiBrain

/-- C5 (counterexample): when both the primary call and the reduced-prompt
retry fail, the message of the raised `TravelAssistantError` embeds the raw
provider exception text, and the `/generate-itinerary` handler returns that
message verbatim, so provider-internal text does cross the public
interface. -/
theorem generation_error_leaks_provider_text :
    (generate_itinerary_body oracleBothErr (str "T") (str "Paris") 3 [] (str "en") 0).1 =
      Except.error (str "Failed to generate itinerary: quota exceeded for project 12345") ∧
    List.IsInfix (str "quota exceeded for project 12345")
      (travel_assistant_error_response
        (str "Failed to generate itinerary: quota exceeded for project 12345")).1 := by
  constructor
  · rfl
  · exact ⟨str "Failed to generate itinerary: ", [], by decide⟩

/-- C5 (amended): when both the primary call and the reduced-prompt retry
fail, `generate_itinerary` raises a `TravelAssistantError` whose message is
the fixed summary prefix `"Failed to generate itinerary: "` followed by the
retry exception's own text, and the caller layer returns exactly this message
with status 400 — the provider exception text is included in, not excluded
from, what crosses the interface. -/
theorem generation_error_wraps_provider_text (oracle : Oracle) (now dest : Str) (days : Int)
    (prefs lang : Str) (n : Nat) (em em2 : Str)
    (hv : validate_inputs dest days prefs = none)
    (h1 : oracle n (GenContents.full (system_prompt lang) (user_prompt dest days prefs)) =
      GenResult.err em)
    (h2 : oracle (n + 1) (GenContents.userOnly (user_prompt dest days prefs)) =
      GenResult.err em2) :
    generate_itinerary_body oracle now dest days prefs lang n =
      (Except.error (str "Failed to generate itinerary: " ++ em2), 2) ∧
    travel_assistant_error_response (str "Failed to generate itinerary: " ++ em2) =
      (str "Failed to generate itinerary: " ++ em2, 400) :=
  ⟨body_both_err oracle now dest days prefs lang n em em2 hv h1 h2, rfl⟩

theorem generation_error_wraps_provider_text_witness :
    validate_inputs (str "Paris") 3 [] = none ∧
    generate_itinerary_body oracleBothErr (str "T") (str "Paris") 3 [] (str "en") 0 =
      (Except.error (str "Failed to generate itinerary: " ++
        str "quota exceeded for project 12345"), 2) :=
  ⟨by decide,
    (generation_error_wraps_provider_text oracleBothErr (str "T") (str "Paris") 3 [] (str "en") 0
      (str "quota exceeded for project 12345") (str "quota exceeded for project 12345")
      (by decide) rfl rfl).1⟩

/-- C6: `clear_cache` never fails and empties the cache; any key is then a
miss, and a call with valid inputs after clearing issues at least one raw
model call again. -/
theorem clear_cache_resets (oracle : Oracle) (now dest : Str) (days : Int)
    (prefs lang : Str) (s : CacheState)
    (hv : validate_inputs dest days prefs = none) :
    (clear_cache s).cache = [] ∧
    lruLookup (dest, days, prefs, lang) (clear_cache s).cache = none ∧
    s.calls + 1 ≤ (generate_itinerary oracle now dest days prefs lang (clear_cache s)).2.calls := by
  refine ⟨rfl, rfl, ?_⟩
  have hmiss : lruLookup (dest, days, prefs, lang) (clear_cache s).cache = none := rfl
  have hpos := body_calls_pos oracle now dest days prefs lang (clear_cache s).calls hv
  rcases hb : generate_itinerary_body oracle now dest days prefs lang (clear_cache s).calls
    with ⟨res, m⟩
  rw [hb] at hpos
  dsimp only at hpos
  cases res with
  | ok v =>
    rw [gen_miss_ok oracle now dest days prefs lang (clear_cache s) v m hmiss hb]
    dsimp only [clear_cache]
    omega
  | error e =>
    rw [gen_miss_err oracle now dest days prefs lang (clear_cache s) e m hmiss hb]
    dsimp only [clear_cache]
    omega

theorem clear_cache_resets_witness :
    validate_inputs (str "Paris") 3 [] = none ∧
    (CacheState.mk [] 0).calls + 1 ≤
      (generate_itinerary oracleOk (str "T") (str "Paris") 3 [] (str "en")
        (clear_cache (CacheState.mk [] 0))).2.calls :=
  ⟨by decide,
    (clear_cache_resets oracleOk (str "T") (str "Paris") 3 [] (str "en") ⟨[], 0⟩ (by decide)).2.2⟩

/-- C9: when `generate_itinerary` raises (validation failure or generation
failure after the retry), the cache is unchanged and holds no entry for the
failing key — `lru_cache` never stores exceptions — so a repetition of the
same call re-executes the body; in particular, when validation passes (the
failure was a generation failure) the repetition issues at least one raw
model call again instead of returning a cached failure. -/
theorem errors_are_not_cached (oracle : Oracle) (now dest : Str) (days : Int)
    (prefs lang : Str) (s : CacheState) (e : Str)
    (herr : (generate_itinerary oracle now dest days prefs lang s).1 = Except.error e) :
    (generate_itinerary oracle now dest days prefs lang s).2.cache = s.cache ∧
    lruLookup (dest, days, prefs, lang) s.cache = none ∧
    (validate_inputs dest days prefs = none →
      (generate_itinerary oracle now dest days prefs lang s).2.calls + 1 ≤
        (generate_itinerary oracle now dest days prefs lang
          (generate_itinerary oracle now dest days prefs lang s).2).2.calls) := by
  cases hl : lruLookup (dest, days, prefs, lang) s.cache with
  | some v =>
    rw [gen_hit oracle now dest days prefs lang s v hl] at herr
    exact absurd herr (by simp)
  | none =>
    rcases hb : generate_itinerary_body oracle now dest days prefs lang s.calls with ⟨res, m⟩
    cases res with
    | ok v =>
      rw [gen_miss_ok oracle now dest days prefs lang s v m hl hb] at herr
      exact absurd herr (by simp)
    | error e2 =>
      have hg := gen_miss_err oracle now dest days prefs lang s e2 m hl hb
      refine ⟨by rw [hg], hl ▸ rfl, fun hv => ?_⟩
      rw [hg]
      dsimp only
      have hl1 : lruLookup (dest, days, prefs, lang)
          (CacheState.mk s.cache (s.calls + m)).cache = none := hl
      have hpos := body_calls_pos oracle now dest days prefs lang
        (CacheState.mk s.cache (s.calls + m)).calls hv
      rcases hb2 : generate_itinerary_body oracle now dest days prefs lang
        (CacheState.mk s.cache (s.calls + m)).calls with ⟨res2, m2⟩
      rw [hb2] at hpos
      dsimp only at hpos
      cases res2 with
      | ok v2 =>
        rw [gen_miss_ok oracle now dest days prefs lang
          (CacheState.mk s.cache (s.calls + m)) v2 m2 hl1 hb2]
        dsimp only
        omega
      | error e3 =>
        rw [gen_miss_err oracle now dest days prefs lang
          (CacheState.mk s.cache (s.calls + m)) e3 m2 hl1 hb2]
        dsimp only
        omega

theorem errors_are_not_cached_witness :
    (generate_itinerary oracleBothErr (str "T") (str "Paris") 3 [] (str "en")
        (CacheState.mk [] 0)).1 =
      Except.error (str "Failed to generate itinerary: quota exceeded for project 12345") ∧
    (generate_itinerary oracleBothErr (str "T") (str "Paris") 3 [] (str "en")
        (CacheState.mk [] 0)).2.cache = (CacheState.mk [] 0).cache :=
  ⟨rfl,
    (errors_are_not_cached oracleBothErr (str "T") (str "Paris") 3 [] (str "en") ⟨[], 0⟩
      (str "Failed to generate itinerary: quota exceeded for project 12345") rfl).1⟩

end AiBrain

namespace AiBrain

/-- C1 (counterexample): with a model whose first raw call fails, the first
`generate_itinerary` call succeeds via the reduced-prompt fallback after two
raw model calls, and the identical second call is a cache hit that adds none;
the external model call was therefore issued twice across the two calls, not
at most once. -/
theorem fallback_makes_two_model_calls :
    exceptIsOk (generate_itinerary oracleFailFirst (str "T") (str "Paris") 3 [] (str "en")
      (CacheState.mk [] 0)).1 = true ∧
    (generate_itinerary oracleFailFirst (str "T") (str "Paris") 3 [] (str "en")
        (generate_itinerary oracleFailFirst (str "T") (str "Paris") 3 [] (str "en")
          (CacheState.mk [] 0)).2).2.calls = 2 ∧
    ¬ (generate_itinerary oracleFailFirst (str "T") (str "Paris") 3 [] (str "en")
        (generate_itinerary oracleFailFirst (str "T") (str "Paris") 3 [] (str "en")
          (CacheState.mk [] 0)).2).2.calls ≤ 1 := by
  refine ⟨rfl, rfl, ?_⟩
  decide

/-- C1 (amended): after a successful `generate_itinerary` call, the identical
second call returns the same cached result and issues no raw model call; the
total number of raw model calls across both calls is thus that of the first
call alone, which is exactly one whenever the first call was a fresh
computation whose primary prompt succeeded (it is two when the reduced-prompt
fallback was used). -/
theorem second_call_hits_cache (oracle : Oracle) (now dest : Str) (days : Int)
    (prefs lang : Str) (s : CacheState) (r : ItineraryResult)
    (hok : (generate_itinerary oracle now dest days prefs lang s).1 = Except.ok r) :
    (generate_itinerary oracle now dest days prefs lang
        (generate_itinerary oracle now dest days prefs lang s).2).1 = Except.ok r ∧
    (generate_itinerary oracle now dest days prefs lang
        (generate_itinerary oracle now dest days prefs lang s).2).2.calls =
      (generate_itinerary oracle now dest days prefs lang s).2.calls ∧
    (lruLookup (dest, days, prefs, lang) s.cache = none →
      ∀ t, oracle s.calls (GenContents.full (system_prompt lang) (user_prompt dest days prefs)) =
            GenResult.ok t →
        (generate_itinerary oracle now dest days prefs lang s).2.calls = s.calls + 1) := by
  cases hl : lruLookup (dest, days, prefs, lang) s.cache with
  | some v =>
    have hg := gen_hit oracle now dest days prefs lang s v hl
    rw [hg] at hok
    dsimp only at hok
    injection hok with hvr
    subst hvr
    rw [hg]
    dsimp only
    have hl2 : lruLookup (dest, days, prefs, lang)
        (((dest, days, prefs, lang), v) :: lruRemove (dest, days, prefs, lang) s.cache) =
          some v := by
      unfold lruLookup
      rw [if_pos rfl]
    have hg2 := gen_hit oracle now dest days prefs lang
      (CacheState.mk
        (((dest, days, prefs, lang), v) :: lruRemove (dest, days, prefs, lang) s.cache)
        s.calls) v hl2
    rw [hg2]
    exact ⟨rfl, rfl, fun hm => absurd hm (by simp)⟩
  | none =>
    rcases hb : generate_itinerary_body oracle now dest days prefs lang s.calls with ⟨res, m⟩
    cases res with
    | error e =>
      rw [gen_miss_err oracle now dest days prefs lang s e m hl hb] at hok
      exact absurd hok (by simp)
    | ok v =>
      have hg := gen_miss_ok oracle now dest days prefs lang s v m hl hb
      rw [hg] at hok
      dsimp only at hok
      injection hok with hvr
      subst hvr
      rw [hg]
      dsimp only
      have hl2 : lruLookup (dest, days, prefs, lang)
          ((((dest, days, prefs, lang), v) :: s.cache).take LRU_MAXSIZE) = some v := by
        rw [show LRU_MAXSIZE = 99 + 1 from rfl, List.take_succ_cons]
        unfold lruLookup
        rw [if_pos rfl]
      have hg2 := gen_hit oracle now dest days prefs lang
        (CacheState.mk ((((dest, days, prefs, lang), v) :: s.cache).take LRU_MAXSIZE)
          (s.calls + m)) v hl2
      rw [hg2]
      refine ⟨rfl, rfl, fun hm t ht => ?_⟩
      cases hvv : validate_inputs dest days prefs with
      | some msg =>
        rw [body_validation_err oracle now dest days prefs lang s.calls msg hvv] at hb
        simp at hb
      | none =>
        have hp := body_primary_ok oracle now dest days prefs lang s.calls t hvv ht
        rw [hb] at hp
        injection hp with hp1 hp2
        rw [hp2]

theorem second_call_hits_cache_witness :
    (generate_itinerary oracleOk (str "T") (str "Paris") 3 [] (str "en")
        (CacheState.mk [] 0)).1 = Except.ok primaryDemoResult ∧
    (generate_itinerary oracleOk (str "T") (str "Paris") 3 [] (str "en")
        (generate_itinerary oracleOk (str "T") (str "Paris") 3 [] (str "en")
          (CacheState.mk [] 0)).2).1 = Except.ok primaryDemoResult :=
  ⟨rfl,
    (second_call_hits_cache oracleOk (str "T") (str "Paris") 3 [] (str "en") ⟨[], 0⟩
      primaryDemoResult rfl).1⟩

end AiBrain

namespace AiBrain

/-! ### The LRU bound and eviction order -/

lemma gen_cache_bound (oracle : Oracle) (now dest : Str) (days : Int)
    (prefs lang : Str) (s : CacheState) (h : s.cache.length ≤ 100) :
    (generate_itinerary oracle now dest days prefs lang s).2.cache.length ≤ 100 := by
  cases hl : lruLookup (dest, days, prefs, lang) s.cache with
  | some v =>
    rw [gen_hit oracle now dest days prefs lang s v hl]
    dsimp only
    calc (lruRemove (dest, days, prefs, lang) s.cache).length + 1 ≤ s.cache.length :=
          lruRemove_length_lt (dest, days, prefs, lang) s.cache v hl
      _ ≤ 100 := h
  | none =>
    rcases hb : generate_itinerary_body oracle now dest days prefs lang s.calls with ⟨res, m⟩
    cases res with
    | ok v =>
      rw [gen_miss_ok oracle now dest days prefs lang s v m hl hb]
      dsimp only
      rw [LRU_MAXSIZE]
      exact List.length_take_le 100 _
    | error e =>
      rw [gen_miss_err oracle now dest days prefs lang s e m hl hb]
      exact h

lemma map_fst_insert (k : CacheKey) (v : ItineraryResult)
    (c : List (CacheKey × ItineraryResult)) :
    (((k, v) :: c).take LRU_MAXSIZE).map Prod.fst = (k :: c.map Prod.fst).take 100 := by
  rw [LRU_MAXSIZE, List.map_take]
  rfl

lemma runCalls_distinct (oracle : Oracle) (now : Str)
    (hok : ∀ n c, genIsOk (oracle n c) = true) :
    ∀ (ks : List CacheKey) (s : CacheState), ks.Nodup →
      (∀ k ∈ ks, validate_inputs k.1 k.2.1 k.2.2.1 = none) →
      (∀ k ∈ ks, lruLookup k s.cache = none) →
      s.cache.length ≤ 100 →
      (runCalls oracle now ks s).cache.map Prod.fst =
        (ks.reverse ++ s.cache.map Prod.fst).take 100 := by
  intro ks
  induction ks with
  | nil =>
    intro s _ _ _ hlen
    simp only [runCalls, List.reverse_nil, List.nil_append]
    rw [List.take_of_length_le (by simpa using hlen)]
  | cons k ks ih =>
    intro s hnd hval hmiss hlen
    have hmk : lruLookup k s.cache = none := hmiss k (List.mem_cons_self k ks)
    have hvk : validate_inputs k.1 k.2.1 k.2.2.1 = none := hval k (List.mem_cons_self k ks)
    cases h1 : oracle s.calls
        (GenContents.full (system_prompt k.2.2.2) (user_prompt k.1 k.2.1 k.2.2.1)) with
    | err em =>
      have hc := hok s.calls
        (GenContents.full (system_prompt k.2.2.2) (user_prompt k.1 k.2.1 k.2.2.1))
      rw [h1] at hc
      exact absurd hc (by simp [genIsOk])
    | ok t =>
      have hb := body_primary_ok oracle now k.1 k.2.1 k.2.2.1 k.2.2.2 s.calls t hvk h1
      have hg := gen_miss_ok oracle now k.1 k.2.1 k.2.2.1 k.2.2.2 s _ 1 hmk hb
      simp only [runCalls]
      rw [hg]
      dsimp only
      rw [ih _ (List.nodup_cons.mp hnd).2 (fun k2 h2 => hval k2 (List.mem_cons_of_mem k h2))
        ?_ ?_]
      · rw [map_fst_insert, take_append_take, List.reverse_cons, List.append_assoc,
          List.singleton_append]
      · intro k2 h2
        rw [lruLookup_eq_none]
        dsimp only
        rw [map_fst_insert]
        intro hmem
        rcases List.mem_cons.mp (List.take_subset 100 _ hmem) with h | h
        · have hkk : k2 = k := h
          exact absurd (hkk ▸ h2) (List.nodup_cons.mp hnd).1
        · exact absurd h ((lruLookup_eq_none k2 s.cache).mp
            (hmiss k2 (List.mem_cons_of_mem k h2)))
      · dsimp only
        rw [LRU_MAXSIZE]
        exact List.length_take_le 100 _

/-- C3: the cache never exceeds 100 entries (any call from a state within
the bound stays within it), and after 101 successful `generate_itinerary`
calls on distinct valid keys starting from the empty cache, exactly 100
entries remain: the keys of the last 100 calls in most-recently-used order,
with the first — least recently used — key evicted. -/
theorem lru_eviction (oracle : Oracle) (now : Str) (k0 : CacheKey) (rest : List CacheKey)
    (hnd : (k0 :: rest).Nodup) (hlen : rest.length = 100)
    (hval : ∀ k ∈ k0 :: rest, validate_inputs k.1 k.2.1 k.2.2.1 = none)
    (hok : ∀ n c, genIsOk (oracle n c) = true) :
    (∀ (dest : Str) (days : Int) (prefs lang : Str) (s : CacheState), s.cache.length ≤ 100 →
      (generate_itinerary oracle now dest days prefs lang s).2.cache.length ≤ 100) ∧
    (runCalls oracle now (k0 :: rest) (CacheState.mk [] 0)).cache.map Prod.fst =
      rest.reverse ∧
    (runCalls oracle now (k0 :: rest) (CacheState.mk [] 0)).cache.length = 100 ∧
    lruLookup k0 (runCalls oracle now (k0 :: rest) (CacheState.mk [] 0)).cache = none := by
  have hinv := runCalls_distinct oracle now hok (k0 :: rest) ⟨[], 0⟩ hnd hval
    (fun k _ => rfl) (by simp)
  have h100 : rest.reverse.length = 100 := by rw [List.length_reverse]; exact hlen
  have hmap : (runCalls oracle now (k0 :: rest) (CacheState.mk [] 0)).cache.map Prod.fst =
      rest.reverse := by
    rw [hinv]
    simp only [List.map_nil, List.append_nil, List.reverse_cons]
    exact List.take_left' h100
  refine ⟨fun dest days prefs lang s h => gen_cache_bound oracle now dest days prefs lang s h,
    hmap, ?_, ?_⟩
  · rw [← List.length_map (runCalls oracle now (k0 :: rest) (CacheState.mk [] 0)).cache
      Prod.fst, hmap, h100]
  · rw [lruLookup_eq_none, hmap, List.mem_reverse]
    exact (List.nodup_cons.mp hnd).1

theorem lru_eviction_witness :
    demoKeys.length = 100 ∧
    lruLookup demoKey0 (runCalls oracleOk (str "T") (demoKey0 :: demoKeys)
      (CacheState.mk [] 0)).cache = none :=
  ⟨by decide,
    (lru_eviction oracleOk (str "T") demoKey0 demoKeys (by decide) (by decide) (by decide)
      (fun n c => rfl)).2.2.2⟩

end AiBrain

namespace AiBrain

/-! ### Pattern-occurrence lemmas for the formatter -/

lemma not_occursB_head {p : Str → Bool} {l : Str} (hnil : p [] = false)
    (h : occursB p l = false) : p l = false := by
  cases l with
  | nil => exact hnil
  | cons c rest =>
    simp only [occursB, Bool.or_eq_false_iff] at h
    exact h.1

lemma not_occursB_tail {p : Str → Bool} {c : Char} {l : Str}
    (h : occursB p (c :: l) = false) : occursB p l = false := by
  simp only [occursB, Bool.or_eq_false_iff] at h
  exact h.2

lemma not_occursB_dropWhile {p : Str → Bool} (q : Char → Bool) {l : Str}
    (h : occursB p l = false) : occursB p (l.dropWhile q) = false := by
  induction l with
  | nil => simpa using h
  | cons c rest ih =>
    rw [List.dropWhile_cons]
    by_cases hq : q c = true
    · rw [if_pos hq]
      exact ih (not_occursB_tail h)
    · rw [if_neg hq]
      exact h

lemma not_occursB_sub {p q : Str → Bool} (himp : ∀ l, p l = true → q l = true) :
    ∀ {l : Str}, occursB q l = false → occursB p l = false := by
  intro l
  induction l with
  | nil => intro _; rfl
  | cons c rest ih =>
    intro h
    simp only [occursB, Bool.or_eq_false_iff] at h ⊢
    refine ⟨?_, ih h.2⟩
    cases hp : p (c :: rest)
    · rfl
    · exact absurd (himp _ hp) (by simp [h.1])

lemma not_occursB_of_front {q : Str → Bool}
    (hmono : ∀ l e, q l = true → q (l ++ e) = true) :
    ∀ (t trail : Str), occursB q (t ++ trail) = false → occursB q t = false := by
  intro t
  induction t with
  | nil => intro trail _; rfl
  | cons c rest ih =>
    intro trail h
    rw [List.cons_append] at h
    simp only [occursB, Bool.or_eq_false_iff] at h ⊢
    refine ⟨?_, ih trail h.2⟩
    cases hq : q (c :: rest)
    · rfl
    · have hx := hmono (c :: rest) trail hq
      rw [List.cons_append] at hx
      exact absurd (h.1 ▸ hx) Bool.false_ne_true

lemma startsWithL_append (p : Str) : ∀ (l e : Str), startsWithL p l = true →
    startsWithL p (l ++ e) = true := by
  induction p with
  | nil => intro l e _; rfl
  | cons a ps ih =>
    intro l e h
    cases l with
    | nil => simp [startsWithL] at h
    | cons c cs =>
      simp only [startsWithL, List.cons_append, Bool.and_eq_true, decide_eq_true_eq] at h ⊢
      exact ⟨h.1, ih cs e h.2⟩

lemma digitsColonTail_append : ∀ (l e : Str), digitsColonTail l = true →
    digitsColonTail (l ++ e) = true := by
  intro l
  induction l with
  | nil => intro e h; simp [digitsColonTail] at h
  | cons c cs ih =>
    intro e h
    simp only [digitsColonTail, List.cons_append] at h ⊢
    by_cases hc : isUnicodeDigit c = true
    · rw [if_pos hc] at h ⊢
      exact ih e h
    · rw [if_neg hc] at h ⊢
      exact h

lemma digitsColonB_append (l e : Str) (h : digitsColonB l = true) :
    digitsColonB (l ++ e) = true := by
  cases l with
  | nil => simp [digitsColonB] at h
  | cons c cs =>
    simp only [digitsColonB, List.cons_append, Bool.and_eq_true] at h ⊢
    exact ⟨h.1, digitsColonTail_append cs e h.2⟩

lemma dropPrefixL_append (p : Str) : ∀ (l e r : Str), dropPrefixL p l = some r →
    dropPrefixL p (l ++ e) = some (r ++ e) := by
  induction p with
  | nil =>
    intro l e r h
    simp only [dropPrefixL, Option.some.injEq] at h ⊢
    rw [h]
  | cons a ps ih =>
    intro l e r h
    cases l with
    | nil => simp [dropPrefixL] at h
    | cons c cs =>
      simp only [dropPrefixL, List.cons_append] at h ⊢
      by_cases hac : a = c
      · rw [if_pos hac] at h ⊢
        exact ih cs e r h
      · rw [if_neg hac] at h
        exact absurd h (by simp)

lemma dayHdrStartB_append (l e : Str) (h : dayHdrStartB l = true) :
    dayHdrStartB (l ++ e) = true := by
  unfold dayHdrStartB at h ⊢
  cases hd : dropPrefixL (str "Day ") l with
  | none => rw [hd] at h; exact absurd h (by simp)
  | some r =>
    rw [hd] at h
    rw [dropPrefixL_append (str "Day ") l e r hd]
    exact digitsColonB_append r e h

lemma headerStartB_append (l e : Str) (h : headerStartB l = true) :
    headerStartB (l ++ e) = true := by
  unfold headerStartB at h ⊢
  simp only [Bool.or_eq_true] at h ⊢
  rcases h with ((((h | h) | h) | h) | h) | h
  · exact Or.inl (Or.inl (Or.inl (Or.inl (Or.inl (dayHdrStartB_append l e h)))))
  · exact Or.inl (Or.inl (Or.inl (Or.inl (Or.inr (startsWithL_append _ l e h)))))
  · exact Or.inl (Or.inl (Or.inl (Or.inr (startsWithL_append _ l e h))))
  · exact Or.inl (Or.inl (Or.inr (startsWithL_append _ l e h)))
  · exact Or.inl (Or.inr (startsWithL_append _ l e h))
  · exact Or.inr (startsWithL_append _ l e h)

lemma occursB_of_dropPrefixL (q : Str → Bool) (hnil : q [] = false) (p : Str) :
    ∀ (l r : Str), dropPrefixL p l = some r → q r = true → occursB q l = true := by
  induction p with
  | nil =>
    intro l r h hq
    simp only [dropPrefixL, Option.some.injEq] at h
    subst h
    cases l with
    | nil => rw [hnil] at hq; exact absurd hq (by simp)
    | cons c cs => simp only [occursB, hq, Bool.true_or]
  | cons a ps ih =>
    intro l r h hq
    cases l with
    | nil => simp [dropPrefixL] at h
    | cons c cs =>
      simp only [dropPrefixL] at h
      by_cases hac : a = c
      · rw [if_pos hac] at h
        have hr := ih cs r h hq
        simp only [occursB, hr, Bool.or_true]
      · rw [if_neg hac] at h
        exact absurd h (by simp)

lemma occursB_dayHdr_of_hashDay (l : Str) (h : hashDayB l = true) :
    occursB dayHdrStartB l = true := by
  unfold hashDayB at h
  cases hd : dropPrefixL (str "## ") l with
  | none => rw [hd] at h; exact absurd h (by simp)
  | some r =>
    rw [hd] at h
    exact occursB_of_dropPrefixL dayHdrStartB rfl (str "## ") l r hd h

lemma not_occursB_nlHashDay {l : Str} (h : occursB dayHdrStartB l = false) :
    occursB nlHashDayStartB l = false := by
  induction l with
  | nil => rfl
  | cons c rest ih =>
    simp only [occursB, Bool.or_eq_false_iff] at h ⊢
    refine ⟨?_, ih h.2⟩
    show (decide (c = '\n') && hashDayB rest) = false
    by_cases hc : c = '\n'
    · cases hh : hashDayB rest
      · simp [hh]
      · exact absurd (h.2 ▸ occursB_dayHdr_of_hashDay rest hh) Bool.false_ne_true
    · simp [hc]

lemma not_occursB_nlHashDay_hashMarked (t : Str)
    (h : occursB nlHashDayStartB t = false) :
    occursB nlHashDayStartB (str "## " ++ t) = false := by
  show occursB nlHashDayStartB ('#' :: '#' :: ' ' :: t) = false
  simp only [occursB, Bool.or_eq_false_iff]
  exact ⟨rfl, rfl, rfl, h⟩

end AiBrain

namespace AiBrain

lemma splitSections_no_header : ∀ (l : Str), occursB headerStartB l = false →
    splitSections l = [l] := by
  intro l
  induction l with
  | nil => intro _; rfl
  | cons c rest ih =>
    intro h
    simp only [occursB, Bool.or_eq_false_iff] at h
    have hrest : headerStartB rest = false := not_occursB_head rfl h.2
    have hcond : (decide (c = '\n') && headerStartB rest) = false := by
      rw [hrest, Bool.and_false]
    simp only [splitSections, hcond, Bool.false_eq_true, if_false, ih h.2]

lemma subDays_no_match : ∀ (l : Str), occursB nlHashDayStartB l = false →
    subDays l = l := by
  intro l
  induction l with
  | nil => intro _; rfl
  | cons c rest ih =>
    intro h
    simp only [occursB, Bool.or_eq_false_iff] at h
    have h1 : (decide (c = '\n') && hashDayB rest) = false := h.1
    simp only [subDays, h1, Bool.false_eq_true, if_false, ih h.2]

lemma dropWhile_suffix_ex (q : Char → Bool) : ∀ (l : Str),
    ∃ pre, pre ++ l.dropWhile q = l := by
  intro l
  induction l with
  | nil => exact ⟨[], rfl⟩
  | cons c rest ih =>
    rw [List.dropWhile_cons]
    by_cases hq : q c = true
    · rw [if_pos hq]
      obtain ⟨pre, hp⟩ := ih
      exact ⟨c :: pre, by rw [List.cons_append, hp]⟩
    · rw [if_neg hq]
      exact ⟨[], rfl⟩

lemma pyStrip_prefix_ex (l : Str) :
    ∃ trail, pyStrip l ++ trail = l.dropWhile pyWs := by
  unfold pyStrip
  obtain ⟨pre, hp⟩ := dropWhile_suffix_ex pyWs (l.dropWhile pyWs).reverse
  refine ⟨pre.reverse, ?_⟩
  have hrev := congrArg List.reverse hp
  rw [List.reverse_append] at hrev
  simpa using hrev

lemma sectionPrefixB_of_no_header (t : Str) (h : headerStartB t = false) :
    sectionPrefixB t = startsWithL (str "Day ") t := by
  unfold headerStartB at h
  simp only [Bool.or_eq_false_iff] at h
  unfold sectionPrefixB
  rw [h.1.1.1.1.2, h.1.1.1.2, h.1.1.2, h.1.2, h.2]
  simp

lemma intercalate_single (sep x : Str) : List.intercalate sep [x] = x := by
  simp [List.intercalate]

/-- C8 (counterexample): the input `"  Day trip  "` contains none of the
recognised section headers, yet the formatter does not return it unchanged
(it strips the whitespace and, because the stripped text starts with
`"Day "`, marks it as a heading). -/
theorem formatter_changes_headerless_text :
    occursB headerStartB (str "  Day trip  ") = false ∧
    format_itinerary_response (str "  Day trip  ") = str "## Day trip" ∧
    format_itinerary_response (str "  Day trip  ") ≠ str "  Day trip  " := by
  refine ⟨by decide, by decide, by decide⟩

/-- C8 (amended): on input containing none of the recognised section headers
the formatter never raises and returns the text stripped of leading and
trailing whitespace, additionally prefixed with the `## ` heading marker when
the stripped text starts with `"Day "`; the text is returned unchanged
exactly when it is already stripped and does not start with `"Day "`. -/
theorem formatter_no_header_passthrough (s : Str)
    (h : occursB headerStartB s = false) :
    format_itinerary_response s =
      (if startsWithL (str "Day ") (pyStrip s) then str "## " ++ pyStrip s
       else pyStrip s) := by
  have hsplit : splitSections s = [s] := splitSections_no_header s h
  have hdayle : ∀ l, dayHdrStartB l = true → headerStartB l = true := by
    intro l hl
    unfold headerStartB
    rw [hl]
    rfl
  have hdw : occursB headerStartB (s.dropWhile pyWs) = false := not_occursB_dropWhile pyWs h
  obtain ⟨trail, htrail⟩ := pyStrip_prefix_ex s
  have hstrip : occursB headerStartB (pyStrip s) = false := by
    apply not_occursB_of_front headerStartB_append (pyStrip s) trail
    rw [htrail]
    exact hdw
  have hstriphd : headerStartB (pyStrip s) = false := not_occursB_head rfl hstrip
  have hdayStrip : occursB dayHdrStartB (pyStrip s) = false := not_occursB_sub hdayle hstrip
  have hnl : occursB nlHashDayStartB (pyStrip s) = false := not_occursB_nlHashDay hdayStrip
  have hsec : sectionPrefixB (pyStrip s) = startsWithL (str "Day ") (pyStrip s) :=
    sectionPrefixB_of_no_header _ hstriphd
  unfold format_itinerary_response
  rw [hsplit]
  dsimp only
  by_cases ht : pyStrip s = []
  · rw [List.filterMap_cons_none (by rw [if_pos ht]), List.filterMap_nil]
    rw [ht]
    rfl
  · rw [List.filterMap_cons_some (by rw [if_neg ht]), List.filterMap_nil,
      intercalate_single]
    rw [hsec]
    cases hd : startsWithL (str "Day ") (pyStrip s)
    · simp only [Bool.false_eq_true, if_false]
      exact subDays_no_match _ hnl
    · simp only [if_true]
      exact subDays_no_match _ (not_occursB_nlHashDay_hashMarked _ hnl)

theorem formatter_no_header_passthrough_witness :
    occursB headerStartB (str "hello\nworld") = false ∧
    format_itinerary_response (str "hello\nworld") =
      (if startsWithL (str "Day ") (pyStrip (str "hello\nworld")) then
        str "## " ++ pyStrip (str "hello\nworld")
       else pyStrip (str "hello\nworld")) :=
  ⟨by decide, formatter_no_header_passthrough (str "hello\nworld") (by decide)⟩

end AiBrain
